import Mathlib

/-!
Verification of the anokoro-tcg-backend realtime hub against its
natural-language specification.

The repository consists of several deployment variants of the same
Node.js WebSocket server.  The definitions below are shallow embeddings
of the handlers the claims cite:

* `src/unnamed/part_001` — the Supabase variant with the full
  three-branch result resolution (`report_result_p1`, `resolveReports_p1`,
  `eloResolve_p1`, `login_p1`);
* `src/index.js` (first half, the original variant) — session table,
  queue, `report_battle_result` (`login_v1`, `logout_v1`, `close_v1`,
  `join_queue_v1`, `report_battle_result_consistent`);
* `src/index.js` (second half, the "安定化版 v3.1" variant) —
  `report_result_v31`, `calculateElo_v31`;
* `src/unnamed/part_005` — the deck-queue variant (`join_queue_005`);
* `src/unnamed/part_006` — the spectate-room variant
  (`report_result_p6`, `join_spectate_room_p6`,
  `webrtc_signal_to_spectator_p6`).

JavaScript numbers: the rates stored in the database are integers
(`INTEGER` columns, every write goes through `Math.round`), so rates are
modelled as `ℤ` and the intermediate Elo arithmetic as exact `ℚ`.
`Math.round` rounds half toward positive infinity, which is `jsRound`
below.  `Math.pow(10, x)` is a double-precision operation; it is
modelled by an explicit function argument `pw : ℚ → ℚ` wherever a
theorem holds for every possible value of it, and by `pow10` (exact on
integer exponents, where `Math.pow` is also exact for the small
exponents that occur) in concrete instances, which only ever apply it
to integer exponents.
-/

namespace Anokoro

/-- JavaScript `Math.round`: round half toward positive infinity. -/
def jsRound (q : ℚ) : ℤ := ⌊q + 1/2⌋

/-- Model of `Math.pow(10, x)` used at the concrete inputs of the
development; exact on integer exponents, where the double computation is
also exact (for the magnitudes that occur).  Concrete theorems below only
apply it to integer exponents. -/
def pow10 (x : ℚ) : ℚ := if x.den = 1 then (10 : ℚ) ^ x.num else 0

/-- A self-declared match result, one of the strings
`'win' | 'lose' | 'cancel'`. -/
inductive Report
| win
| lose
| cancel
deriving DecidableEq

/-- The string the JS code stores for a report. -/
def Report.str : Report → String
| .win => "win"
| .lose => "lose"
| .cancel => "cancel"

/-- A row of the `users` table (the columns the cited handlers touch). -/
structure UserRow where
  username : String
  rate : ℤ
  history : List String
  currentMatchId : Option ℕ
deriving DecidableEq

/-- A row of the `matches` table. -/
structure MatchRow where
  player1 : ℕ
  player2 : ℕ
  report1 : Option Report
  report2 : Option Report
  resolvedAt : Option ℕ
deriving DecidableEq

/-- The slice of the durable store a `report_result` handler reads and
writes: the row for the reported match id (`none` = no such row) and the
user rows. -/
structure StoreState where
  matchRow : Option MatchRow
  users : ℕ → UserRow

/-- The replies a `report_result` handler can send to the reporter. -/
inductive RResp
| fail (msg : String)
| pendingR
| resolvedR (msg : String)
deriving DecidableEq

/-- part_001, lines 572–581: the Elo update of the consistent branch,
seen from the reporter.  `myWin` is `myResult === 'win'`.  Returns
`(myNewRate, opponentNewRate)`; the opponent's new rate is
`opponentCurrentRate - myRateChange` (zero-sum by construction). -/
def eloResolve_p1 (pw : ℚ → ℚ) (myRate oppRate : ℤ) (myWin : Bool) : ℤ × ℤ :=
  let myExpected : ℚ := 1 / (1 + pw (((oppRate - myRate : ℤ) : ℚ) / 400))
  let myActual : ℚ := if myWin then 1 else 0
  let myRateChange : ℤ := jsRound (32 * (myActual - myExpected))
  (myRate + myRateChange, oppRate - myRateChange)

/-- part_001, lines 551–598: the resolution of a match once both reports
are present, seen from the reporter.  Returns the `resolutionMessage`
and the updated rows of the reporter and the opponent (each update also
nulls `current_match_id`). -/
def resolveReports_p1 (pw : ℚ → ℚ) (ts : String) (myResult theirResult : Report)
    (myRow oppRow : UserRow) : String × UserRow × UserRow :=
  if myResult = Report.cancel ∧ theirResult = Report.cancel then
    (("resolved_cancel"),
      { myRow with history := (ts ++ " - 対戦中止") :: myRow.history, currentMatchId := none },
      { oppRow with history := (ts ++ " - 対戦中止") :: oppRow.history, currentMatchId := none })
  else if (myResult = Report.win ∧ theirResult = Report.lose) ∨
      (myResult = Report.lose ∧ theirResult = Report.win) then
    let rates := eloResolve_p1 pw myRow.rate oppRow.rate (myResult == Report.win)
    let myEntry :=
      if myResult = Report.win then
        ts ++ " - 勝利 (レート: " ++ toString myRow.rate ++ " → " ++ toString rates.1 ++ ")"
      else
        ts ++ " - 敗北 (レート: " ++ toString myRow.rate ++ " → " ++ toString rates.1 ++ ")"
    let oppEntry :=
      if myResult = Report.win then
        ts ++ " - 敗北 (レート: " ++ toString oppRow.rate ++ " → " ++ toString rates.2 ++ ")"
      else
        ts ++ " - 勝利 (レート: " ++ toString oppRow.rate ++ " → " ++ toString rates.2 ++ ")"
    (("resolved_consistent"),
      { myRow with rate := rates.1, history := myEntry :: myRow.history, currentMatchId := none },
      { oppRow with rate := rates.2, history := oppEntry :: oppRow.history, currentMatchId := none })
  else
    (("disputed"),
      { myRow with history := (ts ++ " - 結果不一致") :: myRow.history, currentMatchId := none },
      { oppRow with history := (ts ++ " - 結果不一致") :: oppRow.history, currentMatchId := none })

/-- part_001, lines 512–626: the `report_result` handler.  Guard order
mirrors the source: missing match, non-participant, duplicate slot,
then write the slot and either reply `pending` or resolve. -/
def report_result_p1 (pw : ℚ → ℚ) (ts : String) (now : ℕ) (sender : ℕ)
    (st : StoreState) (reported : Report) : StoreState × RResp :=
  match st.matchRow with
  | none => (st, RResp.fail ("無効なマッチIDです。"))
  | some m =>
    let reporterIsPlayer1 := m.player1 == sender
    let reporterIsPlayer2 := m.player2 == sender
    if !reporterIsPlayer1 && !reporterIsPlayer2 then
      (st, RResp.fail ("このマッチに参加していません。"))
    else if (reporterIsPlayer1 && m.report1.isSome) || (reporterIsPlayer2 && m.report2.isSome) then
      (st, RResp.fail ("既に結果を報告済みです。"))
    else
      let m' := if reporterIsPlayer1 then { m with report1 := some reported }
                else { m with report2 := some reported }
      let opponentReport := if reporterIsPlayer1 then m'.report2 else m'.report1
      let opponentId := if reporterIsPlayer1 then m.player2 else m.player1
      match opponentReport with
      | none => ({ st with matchRow := some m' }, RResp.pendingR)
      | some theirResult =>
        let r := resolveReports_p1 pw ts reported theirResult (st.users sender) (st.users opponentId)
        ({ matchRow := some { m' with resolvedAt := some now },
           users := fun i => if i = opponentId then r.2.2
                             else if i = sender then r.2.1 else st.users i },
         RResp.resolvedR r.1)

/-- index.js (v3.1 variant), lines 714–723: `calculateElo`.  `result` is
the player's effective result; `cancel` counts as a draw (score ½). -/
def calculateElo_v31 (pw : ℚ → ℚ) (playerRate opponentRate : ℤ) (result : Report) : ℤ :=
  let expectedScore : ℚ := 1 / (1 + pw (((opponentRate - playerRate : ℤ) : ℚ) / 400))
  let actualScore : ℚ :=
    if result = Report.win then 1 else if result = Report.lose then 0 else 1/2
  jsRound ((playerRate : ℚ) + 32 * (actualScore - expectedScore))

/-- The reply of the v3.1 `report_result` handler: either no reply at all
(`break` on a missing match) or the unconditional success
`report_result_response`. -/
inductive V31Resp
| noReply
| okReport
deriving DecidableEq

/-- index.js (v3.1 variant), lines 841–893: the `report_result` handler.
There is no participant check (a stranger writes `player2_report`), no
duplicate check and no `resolved_at` check; when both slots are non-null
after the write, a mismatched pair is coerced to `cancel` and Elo is
applied; histories are never touched. -/
def report_result_v31 (pw : ℚ → ℚ) (now : ℕ) (sender : ℕ)
    (st : StoreState) (result : Report) : StoreState × V31Resp :=
  match st.matchRow with
  | none => (st, V31Resp.noReply)
  | some m =>
    let isPlayer1 := m.player1 == sender
    let m' := if isPlayer1 then { m with report1 := some result }
              else { m with report2 := some result }
    match m'.report1, m'.report2 with
    | some r1, some r2 =>
      let player1 := st.users m.player1
      let player2 := st.users m.player2
      let p1Result :=
        if (r1 = Report.win ∧ r2 ≠ Report.lose) ∨ (r1 = Report.lose ∧ r2 ≠ Report.win) then
          Report.cancel
        else r1
      let newRate1 := calculateElo_v31 pw player1.rate player2.rate p1Result
      let newRate2 := calculateElo_v31 pw player2.rate player1.rate
        (if p1Result = Report.win then Report.lose
         else if p1Result = Report.lose then Report.win else Report.cancel)
      ({ matchRow := some { m' with resolvedAt := some now },
         users := fun i => if i = m.player2 then { player2 with rate := newRate2 }
                           else if i = m.player1 then { player1 with rate := newRate1 }
                           else st.users i },
       V31Resp.okReport)
    | _, _ => ({ st with matchRow := some m' }, V31Resp.okReport)

/-- The replies of the part_006 `report_result` handler.  `fail` is the
catch-branch error reply, which this exception-free model never produces:
the handler has no duplicate, participant or resolved guard. -/
inductive P6Resp
| noReply
| okPending
| okResolved (msg : String)
| fail (msg : String)
deriving DecidableEq

/-- part_006, lines 315–324: the Elo computation of the consistent
branch.  Unlike part_001, each player's new rate is rounded
independently (`Math.round(rate + K * (score - expected))` per player);
nothing ties the two rounded results together. -/
def eloResolve_p6 (pw : ℚ → ℚ) (r1 r2 : ℤ) (p1res p2res : Report) : ℤ × ℤ :=
  let p1_expected : ℚ := 1 / (1 + pw (((r2 - r1 : ℤ) : ℚ) / 400))
  let p2_expected : ℚ := 1 / (1 + pw (((r1 - r2 : ℤ) : ℚ) / 400))
  let p1_score : ℚ := if p1res = Report.win then 1 else 0
  let p2_score : ℚ := if p2res = Report.win then 1 else 0
  (jsRound ((r1 : ℚ) + 32 * (p1_score - p1_expected)),
   jsRound ((r2 : ℚ) + 32 * (p2_score - p2_expected)))

/-- part_006, lines 286–353: the `report_result` handler.  The slot is
written without any duplicate or resolved check; on resolution the two
new rates are rounded independently and history entries are appended at
the end, uncapped. -/
def report_result_p6 (pw : ℚ → ℚ) (ts : String) (now : ℕ) (sender : ℕ)
    (st : StoreState) (reported : Report) : StoreState × P6Resp :=
  match st.matchRow with
  | none => (st, P6Resp.noReply)
  | some m =>
    let isPlayer1 := m.player1 == sender
    let m' := if isPlayer1 then { m with report1 := some reported }
              else { m with report2 := some reported }
    let opponentReport := if isPlayer1 then m'.report2 else m'.report1
    match opponentReport with
    | none => ({ st with matchRow := some m' }, P6Resp.okPending)
    | some _ =>
      let player1Data := st.users m.player1
      let player2Data := st.users m.player2
      let p1res := m'.report1.getD Report.cancel
      let p2res := m'.report2.getD Report.cancel
      let consistent := (p1res = Report.win ∧ p2res = Report.lose) ∨
        (p1res = Report.lose ∧ p2res = Report.win)
      let newRates :=
        if consistent then eloResolve_p6 pw player1Data.rate player2Data.rate p1res p2res
        else (player1Data.rate, player2Data.rate)
      let p1NewRate : ℤ := newRates.1
      let p2NewRate : ℤ := newRates.2
      let resolutionMessage :=
        if consistent then "対戦結果が確定しました！"
        else "対戦結果の報告が一致しなかったため、レートは変動しません。"
      let p1History := player1Data.history ++
        [ts ++ " vs " ++ player2Data.username ++ ": " ++ p1res.str ++ " (" ++ toString p1NewRate ++ ")"]
      let p2History := player2Data.history ++
        [ts ++ " vs " ++ player1Data.username ++ ": " ++ p2res.str ++ " (" ++ toString p2NewRate ++ ")"]
      ({ matchRow := some { m' with resolvedAt := some now },
         users := fun i =>
           if i = m.player2 then
             { player2Data with rate := p2NewRate, history := p2History, currentMatchId := none }
           else if i = m.player1 then
             { player1Data with rate := p1NewRate, history := p1History, currentMatchId := none }
           else st.users i },
       P6Resp.okResolved resolutionMessage)

/-- index.js (original variant), lines 430–461: the consistent branch of
`report_battle_result`.  Fixed +30/−20 deltas; each history gets the new
record unshifted and is then cut to its first 10 entries. -/
def report_battle_result_consistent (ts : String) (p1Data p2Data : UserRow)
    (player1Won : Bool) : UserRow × UserRow :=
  if player1Won then
    let p1NewRate := p1Data.rate + 30
    let p2NewRate := p2Data.rate - 20
    let p1Record := ts ++ " - BO3 勝利 (レート: " ++ toString p1Data.rate ++ " → " ++ toString p1NewRate ++ ")"
    let p2Record := ts ++ " - BO3 敗北 (レート: " ++ toString p2Data.rate ++ " → " ++ toString p2NewRate ++ ")"
    ({ p1Data with rate := p1NewRate, history := (p1Record :: p1Data.history).take 10 },
     { p2Data with rate := p2NewRate, history := (p2Record :: p2Data.history).take 10 })
  else
    let p1NewRate := p1Data.rate - 20
    let p2NewRate := p2Data.rate + 30
    let p1Record := ts ++ " - BO3 敗北 (レート: " ++ toString p1Data.rate ++ " → " ++ toString p1NewRate ++ ")"
    let p2Record := ts ++ " - BO3 勝利 (レート: " ++ toString p2Data.rate ++ " → " ++ toString p2NewRate ++ ")"
    ({ p1Data with rate := p1NewRate, history := (p1Record :: p1Data.history).take 10 },
     { p2Data with rate := p2NewRate, history := (p2Record :: p2Data.history).take 10 })

/-- index.js (original variant), lines 352–357: `join_queue` pushes only
when `waitingPlayers` does not already include the user. -/
def join_queue_v1 (q : List ℕ) (u : ℕ) : List ℕ :=
  if u ∈ q then q else q ++ [u]

/-- index.js (original variant), line 365 (and the identical filter in the
close handler, line 560): `leave_queue` / close-time removal. -/
def leave_queue_v1 (q : List ℕ) (u : ℕ) : List ℕ :=
  q.filter (fun x => x != u)

/-- One step of the original variant's queue: `join_queue`,
`leave_queue` (the close handler performs the same filter), and the four
outcomes of `tryMatchPlayers` (lines 157–209): both heads matched, or the
still-open heads pushed back to the front. -/
inductive QStep : List ℕ → List ℕ → Prop
| joinQ (q : List ℕ) (u : ℕ) : QStep q (join_queue_v1 q u)
| leaveQ (q : List ℕ) (u : ℕ) : QStep q (leave_queue_v1 q u)
| matched (a b : ℕ) (rest : List ℕ) : QStep (a :: b :: rest) rest
| requeueBoth (a b : ℕ) (rest : List ℕ) : QStep (a :: b :: rest) (b :: a :: rest)
| requeueFst (a b : ℕ) (rest : List ℕ) : QStep (a :: b :: rest) (a :: rest)
| requeueSnd (a b : ℕ) (rest : List ℕ) : QStep (a :: b :: rest) (b :: rest)

/-- Queue states reachable from the empty queue by any sequence of
operations of the original variant. -/
inductive ReachableQ : List ℕ → Prop
| nil : ReachableQ []
| step {q q' : List ℕ} : ReachableQ q → QStep q q' → ReachableQ q'

/-- A part_005 queue entry: `{ ws, userId, deck }` (the socket and deck
are opaque here). -/
structure QEntry005 where
  wsId : ℕ
  userId : ℕ
  deck : ℕ
deriving DecidableEq

/-- part_005, lines 271–291: `join_queue` pushes unconditionally, with no
membership check. -/
def join_queue_005 (q : List QEntry005) (ws u deck : ℕ) : List QEntry005 :=
  q ++ [⟨ws, u, deck⟩]

/-- The in-memory session table of the original index.js variant:
`userToWsId`, the per-connection bound user (`activeConnections`, field
`user_id`), liveness (`wsIdToWs.has` together with `readyState === OPEN`)
and the matchmaking queue. -/
structure SessionState where
  userToWsId : ℕ → Option ℕ
  wsUser : ℕ → Option ℕ
  wsLive : ℕ → Bool
  queue : List ℕ

/-- The frames sent by the session handlers. -/
inductive OutMsg
| loginOk (target user : ℕ)
| loginFail (target : ℕ)
| logoutForced (target : ℕ)
| closeConn (target : ℕ)
| logoutOk (target : ℕ)
| logoutFail (target : ℕ)
deriving DecidableEq

/-- Binding a verified user to a connection: set `senderInfo.user_id` and
`userToWsId`, then reply with the success frame carrying the profile. -/
def bindSession (s : SessionState) (ws u : ℕ) : SessionState × List OutMsg :=
  ({ s with wsUser := fun w => if w = ws then some u else s.wsUser w,
            userToWsId := fun v => if v = u then some ws else s.userToWsId v },
   [OutMsg.loginOk ws u])

/-- index.js (original variant), lines 274–296 (`auto_login`, lines
309–330, is identical): after the credentials verified, if the user is
already mapped to a live connection, that connection is sent
`logout_forced` and closed; the mapping is then overwritten and the new
connection gets the success reply. -/
def login_v1 (s : SessionState) (ws u : ℕ) : SessionState × List OutMsg :=
  let pre : List OutMsg :=
    match s.userToWsId u with
    | some existing =>
      if s.wsLive existing then [OutMsg.logoutForced existing, OutMsg.closeConn existing]
      else []
    | none => []
  let bound := bindSession s ws u
  (bound.1, pre ++ bound.2)

/-- part_001, lines 300–340: the reject-new login.  If the user is mapped
to any other connection id, the login is refused and nothing changes. -/
def login_p1 (s : SessionState) (ws u : ℕ) : SessionState × List OutMsg :=
  match s.userToWsId u with
  | some existing =>
    if existing ≠ ws then (s, [OutMsg.loginFail ws]) else bindSession s ws u
  | none => bindSession s ws u

/-- index.js (original variant), lines 336–345: `logout` deletes the
user's `userToWsId` entry unconditionally (no check that it still points
to this connection) and unbinds the connection.  part_001 (lines 379–389)
and part_006 (lines 223–230) are identical. -/
def logout_v1 (s : SessionState) (ws : ℕ) : SessionState × List OutMsg :=
  match s.wsUser ws with
  | some u =>
    ({ s with userToWsId := fun v => if v = u then none else s.userToWsId v,
              wsUser := fun w => if w = ws then none else s.wsUser w },
     [OutMsg.logoutOk ws])
  | none => (s, [OutMsg.logoutFail ws])

/-- index.js (original variant), lines 549–563: the close handler.  The
`userToWsId` entry is deleted only when it still points to the closing
connection; the user is always removed from the queue; the connection's
own records are dropped.  part_006, lines 452–459, has the same guarded
delete and filter. -/
def close_v1 (s : SessionState) (ws : ℕ) : SessionState :=
  let s1 :=
    match s.wsUser ws with
    | some u =>
      let s2 :=
        if s.userToWsId u = some ws then
          { s with userToWsId := fun v => if v = u then none else s.userToWsId v }
        else s
      { s2 with queue := s2.queue.filter (fun x => x != u) }
    | none => s
  { s1 with wsUser := fun w => if w = ws then none else s1.wsUser w,
            wsLive := fun w => if w = ws then false else s1.wsLive w }

/-- A part_006 spectate room: broadcaster connection id, captured display
name, and the keys of the spectator map. -/
structure Room where
  broadcasterWsId : ℕ
  broadcasterUsername : String
  spectators : List ℕ
deriving DecidableEq

/-- The frames sent by the part_006 spectate handlers. -/
inductive SMsg
| newSpectator (target spectatorId : ℕ)
| broadcastSignal (target : ℕ) (sig : ℕ)
deriving DecidableEq

/-- The connection a spectate frame is delivered to. -/
def SMsg.target : SMsg → ℕ
| .newSpectator t _ => t
| .broadcastSignal t _ => t

/-- part_006, lines 390–400: `join_spectate_room`.  The joiner is added
to the spectator map and the broadcaster (if present) is told
`new_spectator`.  Nothing at all is sent to the joiner. -/
def join_spectate_room_p6 (rooms : ℕ → Option Room) (wsPresent : ℕ → Bool)
    (rid ws : ℕ) : (ℕ → Option Room) × List SMsg :=
  match rooms rid with
  | none => (rooms, [])
  | some room =>
    let room' := { room with spectators :=
      if ws ∈ room.spectators then room.spectators else room.spectators ++ [ws] }
    (fun r => if r = rid then some room' else rooms r,
     if wsPresent room.broadcasterWsId then [SMsg.newSpectator room.broadcasterWsId ws] else [])

/-- part_006, lines 402–409: `webrtc_signal_to_spectator`.  The signal is
relayed to the named spectator if it is a member; the room registry is
left unchanged and nothing is cached. -/
def webrtc_signal_to_spectator_p6 (rooms : ℕ → Option Room) (rid spectatorId : ℕ)
    (sig : ℕ) : (ℕ → Option Room) × List SMsg :=
  match rooms rid with
  | none => (rooms, [])
  | some room =>
    (rooms, if spectatorId ∈ room.spectators then [SMsg.broadcastSignal spectatorId sig] else [])

/-! Concrete states used by the witnesses and counterexamples. -/

/-- A user at the default rating with an empty history. -/
def uAlice : UserRow := ⟨"alice", 1500, [], none⟩

/-- A second user at the default rating. -/
def uBob : UserRow := ⟨"bob", 1500, [], none⟩

/-- A store whose user 2 is `uBob` and every other id is `uAlice`. -/
def usersAB : ℕ → UserRow := fun i => if i = 2 then uBob else uAlice

/-- Store: player 1 has already reported `lose`, player 2 not yet. -/
def stLose : StoreState := ⟨some ⟨1, 2, some Report.lose, none, none⟩, usersAB⟩

/-- Store: player 1 has already reported `win`, player 2 not yet. -/
def stWin : StoreState := ⟨some ⟨1, 2, some Report.win, none, none⟩, usersAB⟩

/-- Store: a fresh match with no reports. -/
def stFresh : StoreState := ⟨some ⟨1, 2, none, none, none⟩, usersAB⟩

/-- Store: a match already resolved (reports `(win, lose)`,
`resolved_at` non-null). -/
def stResolved : StoreState := ⟨some ⟨1, 2, some Report.win, some Report.lose, some 5⟩, usersAB⟩

/-- Ten history entries. -/
def hist10 : List String := List.replicate 10 "x"

/-- A user whose stored history already holds 10 entries. -/
def uTen : UserRow := ⟨"alice", 1500, hist10, none⟩

/-- A spectate registry with one room: broadcaster connection 1
("cara"), one existing spectator (connection 2). -/
def roomsC9 : ℕ → Option Room := fun r => if r = 0 then some ⟨1, "cara", [2]⟩ else none

/-- Session table where user 5 is mapped to connection 2 while
connection 1 is (stale) bound to user 5. -/
def sStale : SessionState :=
  ⟨fun v => if v = 5 then some 2 else none,
   fun w => if w = 1 then some 5 else none,
   fun _ => true, [5]⟩

/-- Session table where user 5 is mapped to connection 1, which is bound
to user 5 and queued. -/
def sOwn : SessionState :=
  ⟨fun v => if v = 5 then some 1 else none,
   fun w => if w = 1 then some 5 else none,
   fun _ => true, [5]⟩

/-! Formalizations of the claims' statements, written from the spec's
words, to be compared with the behaviour of the embedded handlers. -/

/-- C1's statement as it reads on the v3.1 `report_result` handler,
restricted to the clause the handler violates: whenever the frame leaves
both report slots non-null and the stored pair is neither
`(cancel, cancel)` nor complementary win/lose, the outcome is *disputed*:
player 1's rate is unchanged and player 1's history gets a new entry
prepended. -/
def claimC1_v31 : Prop :=
  ∀ (pw : ℚ → ℚ) (now sender : ℕ) (st : StoreState) (reported : Report)
    (m m' : MatchRow) (r1 r2 : Report),
    st.matchRow = some m →
    (report_result_v31 pw now sender st reported).1.matchRow = some m' →
    m'.report1 = some r1 → m'.report2 = some r2 →
    ¬ (r1 = Report.cancel ∧ r2 = Report.cancel) →
    ¬ ((r1 = Report.win ∧ r2 = Report.lose) ∨ (r1 = Report.lose ∧ r2 = Report.win)) →
    ((report_result_v31 pw now sender st reported).1.users m.player1).rate
        = (st.users m.player1).rate ∧
    ∃ e, ((report_result_v31 pw now sender st reported).1.users m.player1).history
        = e :: (st.users m.player1).history

/-- C4's statement as it reads on the part_006 `report_result` handler:
a frame whose reporter's slot already holds a non-null report is rejected
as a duplicate (an error reply) with no state change. -/
def claimC4_p6 : Prop :=
  ∀ (pw : ℚ → ℚ) (ts : String) (now sender : ℕ) (st : StoreState)
    (reported : Report) (m : MatchRow),
    st.matchRow = some m →
    ((m.player1 = sender ∧ m.report1.isSome) ∨ (m.player2 = sender ∧ m.report2.isSome)) →
    ∃ msg, report_result_p6 pw ts now sender st reported = (st, P6Resp.fail msg)

/-- C5's statement as it reads on the v3.1 `report_result` handler: a
frame naming a match whose `resolved_at` is already non-null is rejected,
so the reporter's user row and the match row are left unchanged. -/
def claimC5_v31 : Prop :=
  ∀ (pw : ℚ → ℚ) (now sender : ℕ) (st : StoreState) (r : Report)
    (m : MatchRow) (t : ℕ),
    st.matchRow = some m → m.resolvedAt = some t →
    ((report_result_v31 pw now sender st r).1.users sender).rate = (st.users sender).rate ∧
    (report_result_v31 pw now sender st r).1.matchRow = st.matchRow

/-- C7's statement as it reads on the part_005 queue: enqueueing a
user-id that is already present in the queue is a no-op. -/
def claimC7_005 : Prop :=
  ∀ (q : List QEntry005) (ws u deck : ℕ),
    (∃ e ∈ q, e.userId = u) → join_queue_005 q ws u deck = q

/-- C8's statement as it reads on the part_001 resolution: after any
resolution category the stored history is capped at 10 entries, for
every prior history length. -/
def claimC8_cap : Prop :=
  ∀ (pw : ℚ → ℚ) (ts : String) (myResult theirResult : Report) (myRow oppRow : UserRow),
    ((resolveReports_p1 pw ts myResult theirResult myRow oppRow).2.1.history).length ≤ 10

/-- C9's statement as it reads on the part_006 spectate registry: after
the broadcaster has sent an SDP offer (relayed to a current spectator,
which is the only offer-shaped send the variant has), a newly joining
spectator immediately receives some frame (the cached offer). -/
def claimC9_p6 : Prop :=
  ∀ (rooms : ℕ → Option Room) (present : ℕ → Bool) (rid specWs sig joinWs : ℕ) (room : Room),
    rooms rid = some room → specWs ∈ room.spectators →
    ∃ msg ∈ (join_spectate_room_p6
        (webrtc_signal_to_spectator_p6 rooms rid specWs sig).1 present rid joinWs).2,
      SMsg.target msg = joinWs

/-! Helper lemmas. -/

/-- `pow10` agrees with the exact power of ten on integer exponents. -/
theorem pow10_intCast (m : ℤ) : pow10 ((m : ℤ) : ℚ) = (10 : ℚ) ^ m := by
  simp [pow10]

/-- Rounding half-up commutes with negation away from the half-integer
boundary. -/
theorem jsRound_neg_eq (x : ℚ) (h : ∀ k : ℤ, x + 1/2 ≠ (k : ℚ)) :
    -jsRound (-x) = jsRound x := by
  unfold jsRound
  have h1 : ((⌊x + 1/2⌋ : ℤ) : ℚ) ≤ x + 1/2 := Int.floor_le _
  have h2 : x + 1/2 < (⌊x + 1/2⌋ : ℤ) + 1 := Int.lt_floor_add_one _
  have h1' : ((⌊x + 1/2⌋ : ℤ) : ℚ) < x + 1/2 :=
    lt_of_le_of_ne h1 (fun he => h _ he.symm)
  have h3 : ⌊-x + 1/2⌋ = -⌊x + 1/2⌋ := by
    rw [Int.floor_eq_iff]
    constructor
    · push_cast
      linarith
    · push_cast
      linarith
  omega

/-- `32 / (1 + 10^m)` is never exactly half-way between two integers, for
any integer exponent `m`. -/
theorem half_odd_ne (m k : ℤ) : 32 / (1 + (10 : ℚ) ^ m) + 1/2 ≠ (k : ℚ) := by
  intro h
  rcases le_or_lt 0 m with hm | hm
  · lift m to ℕ using hm
    rw [zpow_natCast] at h
    have hpos : (0 : ℚ) < 1 + (10 : ℚ) ^ m := by positivity
    have h1 : 32 / (1 + (10 : ℚ) ^ m) = (k : ℚ) - 1/2 := by linarith
    have h2 : (32 : ℚ) = ((k : ℚ) - 1/2) * (1 + (10 : ℚ) ^ m) :=
      (div_eq_iff (ne_of_gt hpos)).mp h1
    have h3 : ((64 : ℤ) : ℚ) = (((2 * k - 1) * (1 + 10 ^ m) : ℤ) : ℚ) := by
      push_cast
      linear_combination 2 * h2
    have h4 : (64 : ℤ) = (2 * k - 1) * (1 + 10 ^ m) := by exact_mod_cast h3
    rcases Nat.eq_zero_or_pos m with hn | hn
    · subst hn
      simp at h4
      omega
    · have hdvd : (2 : ℤ) ∣ 10 ^ m := dvd_pow (by norm_num) (by omega)
      obtain ⟨c, hc⟩ := hdvd
      rw [hc] at h4
      have hodd : Odd ((2 * k - 1) * (1 + 2 * c)) :=
        Odd.mul ⟨k - 1, by ring⟩ ⟨c, by ring⟩
      rw [← h4] at hodd
      rcases hodd with ⟨j, hj⟩
      omega
  · obtain ⟨n, rfl⟩ : ∃ n : ℕ, m = -((n : ℤ) + 1) := ⟨(-m - 1).toNat, by omega⟩
    rw [zpow_neg] at h
    have h10 : (10 : ℚ) ^ ((n : ℤ) + 1) = (10 : ℚ) ^ (n + 1) := by
      rw [show ((n : ℤ) + 1) = ((n + 1 : ℕ) : ℤ) by push_cast; ring, zpow_natCast]
    rw [h10] at h
    have hP : (0 : ℚ) < (10 : ℚ) ^ (n + 1) := by positivity
    have hP1 : (0 : ℚ) < 1 + ((10 : ℚ) ^ (n + 1))⁻¹ := by positivity
    have h1 : 32 / (1 + ((10 : ℚ) ^ (n + 1))⁻¹) = (k : ℚ) - 1/2 := by linarith
    have h2 : (32 : ℚ) = ((k : ℚ) - 1/2) * (1 + ((10 : ℚ) ^ (n + 1))⁻¹) :=
      (div_eq_iff (ne_of_gt hP1)).mp h1
    have hmul : ((10 : ℚ) ^ (n + 1))⁻¹ * (10 : ℚ) ^ (n + 1) = 1 :=
      inv_mul_cancel₀ (ne_of_gt hP)
    have h3 : (64 : ℚ) * (10 : ℚ) ^ (n + 1)
        = (2 * (k : ℚ) - 1) * ((10 : ℚ) ^ (n + 1) + 1) := by
      linear_combination (2 * (10 : ℚ) ^ (n + 1)) * h2 + (2 * (k : ℚ) - 1) * hmul
    have h4 : (64 : ℤ) * 10 ^ (n + 1) = (2 * k - 1) * (10 ^ (n + 1) + 1) := by
      exact_mod_cast h3
    have hdvd : (2 : ℤ) ∣ 10 ^ (n + 1) := dvd_pow (by norm_num) (Nat.succ_ne_zero n)
    obtain ⟨c, hc⟩ := hdvd
    rw [hc] at h4
    have hodd : Odd ((2 * k - 1) * (2 * c + 1)) :=
      Odd.mul ⟨k - 1, by ring⟩ ⟨c, by ring⟩
    rw [show (2 * c + 1 : ℤ) = 2 * c + 1 by ring, ← h4] at hodd
    rcases hodd with ⟨j, hj⟩
    omega

/-- `jsRound` splits off integer summands. -/
theorem jsRound_int_add (r : ℤ) (x : ℚ) : jsRound ((r : ℚ) + x) = r + jsRound x := by
  unfold jsRound
  rw [add_assoc, Int.floor_int_add]

/-- `32 * (1 - 1/(1 + 10^m))` is never exactly half-way between two
integers either. -/
theorem half_odd_ne' (m k : ℤ) :
    32 * (1 - 1 / (1 + (10 : ℚ) ^ m)) + 1/2 ≠ (k : ℚ) := by
  intro h
  apply half_odd_ne m (33 - k)
  push_cast
  linear_combination -h

/-- C2: in the part_001 consistent resolution the winner's rate change
equals `round(32 * (1 - expected(winner)))`, the loser's rate change is
its exact negation, so the two changes sum to 0 for all initial rates
(and for every value of the transcendental `Math.pow` computation); when
the loser reports second and the rate difference is an exactly
representable multiple of 400, the same winner formula still describes
the winner's change; in particular two 1500-rated players end at 1516 and
1484.  The part_006 consistent resolution rounds the two new rates
independently; nevertheless, at every exactly representable rate
difference its winner change also equals
`round(32 * (1 - expected(winner)))`, the loser's change is again its
exact negation and the sum is 0 — because `32/(1 + 10^m)` can never be
half-way between two integers — and the 1500/1500 case again ends at
1516 and 1484. -/
theorem C2_elo_zero_sum :
    ∀ (pw : ℚ → ℚ) (myRate oppRate : ℤ) (myWin : Bool),
      (((eloResolve_p1 pw myRate oppRate myWin).1 - myRate)
          + ((eloResolve_p1 pw myRate oppRate myWin).2 - oppRate) = 0
        ∧ (eloResolve_p1 pw myRate oppRate myWin).2 - oppRate
            = -((eloResolve_p1 pw myRate oppRate myWin).1 - myRate))
      ∧ (myWin = true →
          (eloResolve_p1 pw myRate oppRate myWin).1 - myRate
            = jsRound (32 * (1 - 1 / (1 + pw (((oppRate - myRate : ℤ) : ℚ) / 400)))))
      ∧ (∀ mDiff : ℤ, myWin = false → oppRate - myRate = 400 * mDiff →
          (eloResolve_p1 pow10 myRate oppRate myWin).2 - oppRate
            = jsRound (32 * (1 - 1 / (1 + pow10 (((myRate - oppRate : ℤ) : ℚ) / 400)))))
      ∧ (∀ (r1 r2 mDiff : ℤ) (p1res p2res : Report),
          r2 - r1 = 400 * mDiff →
          ((p1res = Report.win ∧ p2res = Report.lose) ∨
           (p1res = Report.lose ∧ p2res = Report.win)) →
          ((eloResolve_p6 pow10 r1 r2 p1res p2res).1 - r1)
              + ((eloResolve_p6 pow10 r1 r2 p1res p2res).2 - r2) = 0
          ∧ (eloResolve_p6 pow10 r1 r2 p1res p2res).2 - r2
              = -((eloResolve_p6 pow10 r1 r2 p1res p2res).1 - r1)
          ∧ (p1res = Report.win →
              (eloResolve_p6 pow10 r1 r2 p1res p2res).1 - r1
                = jsRound (32 * (1 - 1 / (1 + pow10 (((r2 - r1 : ℤ) : ℚ) / 400)))))
          ∧ (p2res = Report.win →
              (eloResolve_p6 pow10 r1 r2 p1res p2res).2 - r2
                = jsRound (32 * (1 - 1 / (1 + pow10 (((r1 - r2 : ℤ) : ℚ) / 400))))))
      ∧ eloResolve_p1 pow10 1500 1500 true = (1516, 1484)
      ∧ eloResolve_p6 pow10 1500 1500 Report.win Report.lose = (1516, 1484) := by
  intro pw myRate oppRate myWin
  refine ⟨⟨?_, ?_⟩, ?_, ?_, ?_, ?_, ?_⟩
  · simp only [eloResolve_p1]
    ring
  · simp only [eloResolve_p1]
    ring
  · intro hw
    subst hw
    simp only [eloResolve_p1, if_true]
    ring_nf
  · intro mDiff hw hdiff
    subst hw
    have hx : (((oppRate - myRate : ℤ) : ℚ)) / 400 = ((mDiff : ℤ) : ℚ) := by
      rw [hdiff]
      push_cast
      ring
    have hx2 : (((myRate - oppRate : ℤ) : ℚ)) / 400 = ((-mDiff : ℤ) : ℚ) := by
      rw [show myRate - oppRate = 400 * (-mDiff) by omega]
      push_cast
      ring
    simp only [eloResolve_p1, Bool.false_eq_true, if_false]
    rw [hx, hx2, pow10_intCast, pow10_intCast]
    have hq : (0 : ℚ) < (10 : ℚ) ^ mDiff := by positivity
    have harg : (32 : ℚ) * ((0 : ℚ) - 1 / (1 + (10 : ℚ) ^ mDiff))
        = -(32 / (1 + (10 : ℚ) ^ mDiff)) := by
      ring
    have harg2 : (32 : ℚ) * (1 - 1 / (1 + (10 : ℚ) ^ (-mDiff)))
        = 32 / (1 + (10 : ℚ) ^ mDiff) := by
      rw [zpow_neg]
      have h1 : (0 : ℚ) < 1 + (10 : ℚ) ^ mDiff := by positivity
      have h2 : (0 : ℚ) < 1 + ((10 : ℚ) ^ mDiff)⁻¹ := by positivity
      field_simp
      ring
    rw [harg, harg2]
    have hgoal : oppRate - jsRound (-(32 / (1 + (10 : ℚ) ^ mDiff))) - oppRate
        = -jsRound (-(32 / (1 + (10 : ℚ) ^ mDiff))) := by ring
    rw [hgoal]
    exact jsRound_neg_eq _ (half_odd_ne mDiff)
  · intro r1 r2 mDiff p1res p2res hdiff hcomp
    have hx : (((r2 - r1 : ℤ) : ℚ)) / 400 = ((mDiff : ℤ) : ℚ) := by
      rw [hdiff]
      push_cast
      ring
    have hx2 : (((r1 - r2 : ℤ) : ℚ)) / 400 = ((-mDiff : ℤ) : ℚ) := by
      rw [show r1 - r2 = 400 * (-mDiff) by omega]
      push_cast
      ring
    have hq : (0 : ℚ) < (10 : ℚ) ^ mDiff := by positivity
    have hq1 : (0 : ℚ) < 1 + (10 : ℚ) ^ mDiff := by positivity
    have hq2 : (0 : ℚ) < 1 + ((10 : ℚ) ^ mDiff)⁻¹ := by positivity
    rcases hcomp with ⟨h1, h2⟩ | ⟨h1, h2⟩ <;> subst h1 <;> subst h2
    · have hred : eloResolve_p6 pow10 r1 r2 Report.win Report.lose
          = (r1 + jsRound (32 * (1 - 1 / (1 + (10 : ℚ) ^ mDiff))),
             r2 + jsRound (32 * ((0 : ℚ) - 1 / (1 + ((10 : ℚ) ^ mDiff)⁻¹)))) := by
        simp +decide only [eloResolve_p6, hx, hx2, pow10_intCast, zpow_neg, if_true, if_false]
        rw [jsRound_int_add, jsRound_int_add]
      have hkey : (32 : ℚ) * ((0 : ℚ) - 1 / (1 + ((10 : ℚ) ^ mDiff)⁻¹))
          = -(32 * (1 - 1 / (1 + (10 : ℚ) ^ mDiff))) := by
        field_simp
        ring
      have hneg : jsRound (32 * ((0 : ℚ) - 1 / (1 + ((10 : ℚ) ^ mDiff)⁻¹)))
          = -jsRound (32 * (1 - 1 / (1 + (10 : ℚ) ^ mDiff))) := by
        rw [hkey]
        have hne := jsRound_neg_eq (32 * (1 - 1 / (1 + (10 : ℚ) ^ mDiff))) (half_odd_ne' mDiff)
        omega
      refine ⟨?_, ?_, ?_, ?_⟩
      · rw [hred]
        simp only [hneg]
        ring
      · rw [hred]
        simp only [hneg]
        ring
      · intro hcontra
        rw [hred, hx, pow10_intCast]
        ring
      · intro hcontra
        exact absurd hcontra (by decide)
    · have hred : eloResolve_p6 pow10 r1 r2 Report.lose Report.win
          = (r1 + jsRound (32 * ((0 : ℚ) - 1 / (1 + (10 : ℚ) ^ mDiff))),
             r2 + jsRound (32 * (1 - 1 / (1 + ((10 : ℚ) ^ mDiff)⁻¹)))) := by
        simp +decide only [eloResolve_p6, hx, hx2, pow10_intCast, zpow_neg, if_true, if_false]
        rw [jsRound_int_add, jsRound_int_add]
      have hkey2 : (32 : ℚ) * (1 - 1 / (1 + ((10 : ℚ) ^ mDiff)⁻¹))
          = 32 / (1 + (10 : ℚ) ^ mDiff) := by
        field_simp
        ring
      have hkey3 : (32 : ℚ) * ((0 : ℚ) - 1 / (1 + (10 : ℚ) ^ mDiff))
          = -(32 / (1 + (10 : ℚ) ^ mDiff)) := by
        ring
      have hnegY : jsRound (32 * ((0 : ℚ) - 1 / (1 + (10 : ℚ) ^ mDiff)))
          = -jsRound (32 / (1 + (10 : ℚ) ^ mDiff)) := by
        rw [hkey3]
        have hne := jsRound_neg_eq (32 / (1 + (10 : ℚ) ^ mDiff)) (half_odd_ne mDiff)
        omega
      have hY : jsRound (32 * (1 - 1 / (1 + ((10 : ℚ) ^ mDiff)⁻¹)))
          = jsRound (32 / (1 + (10 : ℚ) ^ mDiff)) := by
        rw [hkey2]
      refine ⟨?_, ?_, ?_, ?_⟩
      · rw [hred]
        simp only [hnegY, hY]
        ring
      · rw [hred]
        simp only [hnegY, hY]
        ring
      · intro hcontra
        exact absurd hcontra (by decide)
      · intro hcontra
        rw [hred, hx2, pow10_intCast, zpow_neg]
        ring
  · norm_num [eloResolve_p1, jsRound, pow10]
  · simp +decide [eloResolve_p6]
    norm_num [jsRound, pow10]

/-- Witness for C2: the part_001 winner-reports clause at rates
1500/1500, the part_001 loser-reports clause at rates 1100/1500
(difference 400), and the part_006 zero-sum and winner-formula clauses
at the same 1100/1500 rates. -/
theorem C2_witness :
    (eloResolve_p1 pow10 1500 1500 true).1 - 1500
        = jsRound (32 * (1 - 1 / (1 + pow10 (((1500 - 1500 : ℤ) : ℚ) / 400))))
    ∧ (eloResolve_p1 pow10 1100 1500 false).2 - 1500
        = jsRound (32 * (1 - 1 / (1 + pow10 (((1100 - 1500 : ℤ) : ℚ) / 400))))
    ∧ ((eloResolve_p6 pow10 1100 1500 Report.win Report.lose).1 - 1100)
        + ((eloResolve_p6 pow10 1100 1500 Report.win Report.lose).2 - 1500) = 0
    ∧ (eloResolve_p6 pow10 1100 1500 Report.win Report.lose).1 - 1100
        = jsRound (32 * (1 - 1 / (1 + pow10 (((1500 - 1100 : ℤ) : ℚ) / 400)))) :=
  ⟨(C2_elo_zero_sum pow10 1500 1500 true).2.1 rfl,
   (C2_elo_zero_sum pow10 1100 1500 false).2.2.1 1 rfl (by norm_num),
   ((C2_elo_zero_sum pow10 1100 1500 true).2.2.2.1 1100 1500 1 Report.win Report.lose
      (by norm_num) (Or.inl ⟨rfl, rfl⟩)).1,
   ((C2_elo_zero_sum pow10 1100 1500 true).2.2.2.1 1100 1500 1 Report.win Report.lose
      (by norm_num) (Or.inl ⟨rfl, rfl⟩)).2.2.1 rfl⟩

/-- C1 (amended): in the part_001 resolution, both-cancel yields the
*cancel* outcome with both rates unchanged and a timestamped 対戦中止
entry prepended to each history; an exactly complementary win/lose pair
yields the *consistent* outcome; every other combination yields the
*disputed* outcome with both rates unchanged and a 結果不一致 entry
prepended to each history.  (The index.js v3.1 variant violates this;
see its counterexample.) -/
theorem C1_resolution_categories :
    ∀ (pw : ℚ → ℚ) (ts : String) (myResult theirResult : Report) (myRow oppRow : UserRow),
      (myResult = Report.cancel → theirResult = Report.cancel →
        resolveReports_p1 pw ts myResult theirResult myRow oppRow
          = ("resolved_cancel",
             { myRow with history := (ts ++ " - 対戦中止") :: myRow.history,
                          currentMatchId := none },
             { oppRow with history := (ts ++ " - 対戦中止") :: oppRow.history,
                           currentMatchId := none }))
      ∧ (((myResult = Report.win ∧ theirResult = Report.lose) ∨
            (myResult = Report.lose ∧ theirResult = Report.win)) →
          (resolveReports_p1 pw ts myResult theirResult myRow oppRow).1
            = "resolved_consistent")
      ∧ (¬ (myResult = Report.cancel ∧ theirResult = Report.cancel) →
         ¬ ((myResult = Report.win ∧ theirResult = Report.lose) ∨
            (myResult = Report.lose ∧ theirResult = Report.win)) →
          resolveReports_p1 pw ts myResult theirResult myRow oppRow
            = ("disputed",
               { myRow with history := (ts ++ " - 結果不一致") :: myRow.history,
                            currentMatchId := none },
               { oppRow with history := (ts ++ " - 結果不一致") :: oppRow.history,
                             currentMatchId := none })) := by
  intro pw ts myResult theirResult myRow oppRow
  refine ⟨?_, ?_, ?_⟩
  · intro h1 h2
    subst h1
    subst h2
    simp [resolveReports_p1]
  · intro h
    rcases h with ⟨h1, h2⟩ | ⟨h1, h2⟩ <;> subst h1 <;> subst h2 <;>
      simp [resolveReports_p1]
  · intro h1 h2
    cases myResult <;> cases theirResult <;> simp_all [resolveReports_p1]

/-- Witness for C1: a concrete cancel/cancel resolution and a concrete
win/win (disputed) resolution. -/
theorem C1_witness :
    resolveReports_p1 pow10 "t" Report.cancel Report.cancel uAlice uBob
      = ("resolved_cancel",
         { uAlice with history := ("t" ++ " - 対戦中止") :: uAlice.history,
                       currentMatchId := none },
         { uBob with history := ("t" ++ " - 対戦中止") :: uBob.history,
                     currentMatchId := none })
    ∧ resolveReports_p1 pow10 "t" Report.win Report.win uAlice uBob
      = ("disputed",
         { uAlice with history := ("t" ++ " - 結果不一致") :: uAlice.history,
                       currentMatchId := none },
         { uBob with history := ("t" ++ " - 結果不一致") :: uBob.history,
                     currentMatchId := none }) :=
  ⟨(C1_resolution_categories pow10 "t" Report.cancel Report.cancel uAlice uBob).1 rfl rfl,
   (C1_resolution_categories pow10 "t" Report.win Report.win uAlice uBob).2.2
     (by simp) (by simp)⟩

/-- Counterexample for C1: in the index.js v3.1 handler, a both-`lose`
(disputed) pair is resolved without prepending any history entry (the
variant never touches histories and coerces the pair to `cancel` before
applying Elo), refuting the claim's disputed clause. -/
theorem C1_counterexample : ¬ claimC1_v31 := by
  intro h
  obtain ⟨-, e, habs⟩ :=
    h pow10 7 2 stLose Report.lose ⟨1, 2, some Report.lose, none, none⟩
      ⟨1, 2, some Report.lose, some Report.lose, some 7⟩ Report.lose Report.lose
      rfl (by norm_num [report_result_v31, stLose]) rfl rfl (by simp) (by simp)
  have hh : ((report_result_v31 pow10 7 2 stLose Report.lose).1.users 1).history = [] := by
    norm_num [report_result_v31, stLose, usersAB, uAlice, uBob]
  have hh2 : ((stLose.users 1)).history = [] := by
    norm_num [stLose, usersAB, uAlice]
  rw [show (⟨1, 2, some Report.lose, none, none⟩ : MatchRow).player1 = 1 from rfl] at habs
  rw [hh, hh2] at habs
  exact List.noConfusion habs

/-- C3: in the index.js variant, a successful login (or auto_login, which
runs the same code) by user `u` on connection `ws` while `userToWsId`
maps `u` to some other live connection `c` replaces the mapping with
`ws`, sends `c` a `logout_forced` notice followed by a close, and replies
success to `ws`; in the part_001 reject-new variant the same situation
never produces a successful login (the frame is refused with the state
unchanged). -/
theorem C3_login_takeover :
    ∀ (s : SessionState) (ws u c : ℕ),
      s.userToWsId u = some c → c ≠ ws → s.wsLive c = true →
      ((login_v1 s ws u).1.userToWsId u = some ws
        ∧ (login_v1 s ws u).1.wsUser ws = some u
        ∧ (login_v1 s ws u).2
            = [OutMsg.logoutForced c, OutMsg.closeConn c, OutMsg.loginOk ws u])
      ∧ login_p1 s ws u = (s, [OutMsg.loginFail ws]) := by
  intro s ws u c h1 h2 h3
  refine ⟨⟨?_, ?_, ?_⟩, ?_⟩
  · simp [login_v1, bindSession]
  · simp [login_v1, bindSession]
  · simp [login_v1, bindSession, h1, h3]
  · simp [login_p1, h1, h2]

/-- Witness for C3: connection 2 holds user 5's session and is live;
user 5 logs in again on connection 1. -/
theorem C3_witness :
    ((login_v1 sStale 1 5).1.userToWsId 5 = some 1
      ∧ (login_v1 sStale 1 5).1.wsUser 1 = some 5
      ∧ (login_v1 sStale 1 5).2
          = [OutMsg.logoutForced 2, OutMsg.closeConn 2, OutMsg.loginOk 1 5])
    ∧ login_p1 sStale 1 5 = (sStale, [OutMsg.loginFail 1]) :=
  C3_login_takeover sStale 1 5 2 rfl (by decide) rfl

/-- C4 (amended): in the part_001 handler, the first of two identical
`report_result` frames from the same reporter on a fresh match is
accepted (reply `pending`), and the second is rejected as a duplicate
with the store unchanged.  (The part_006 handler performs no duplicate
check; see its counterexample.) -/
theorem C4_duplicate_report :
    ∀ (pw : ℚ → ℚ) (ts : String) (now now2 sender : ℕ) (st : StoreState)
      (r : Report) (m : MatchRow),
      st.matchRow = some m → m.report1 = none → m.report2 = none →
      (m.player1 = sender ∨ m.player2 = sender) →
      (report_result_p1 pw ts now sender st r).2 = RResp.pendingR ∧
      report_result_p1 pw ts now2 sender (report_result_p1 pw ts now sender st r).1 r
        = ((report_result_p1 pw ts now sender st r).1,
           RResp.fail ("既に結果を報告済みです。")) := by
  intro pw ts now now2 sender st r m hm h1 h2 hp
  by_cases hP1 : m.player1 = sender
  · subst hP1
    constructor
    · simp [report_result_p1, hm, h1, h2]
    · simp [report_result_p1, hm, h1, h2]
  · have hb1 : (m.player1 == sender) = false := beq_eq_false_iff_ne.mpr hP1
    have hP2 : m.player2 = sender := by tauto
    subst hP2
    constructor
    · simp [report_result_p1, hm, h1, h2, hb1]
    · simp [report_result_p1, hm, h1, h2, hb1]

/-- Witness for C4: user 1 reports `win` twice on a fresh match. -/
theorem C4_witness :
    (report_result_p1 pow10 "t" 5 1 stFresh Report.win).2 = RResp.pendingR ∧
    report_result_p1 pow10 "t" 6 1 (report_result_p1 pow10 "t" 5 1 stFresh Report.win).1 Report.win
      = ((report_result_p1 pow10 "t" 5 1 stFresh Report.win).1,
         RResp.fail ("既に結果を報告済みです。")) :=
  C4_duplicate_report pow10 "t" 5 6 1 stFresh Report.win ⟨1, 2, none, none, none⟩
    rfl rfl rfl (Or.inl rfl)

/-- Counterexample for C4: the part_006 handler answers a repeated report
from player 1 (whose slot already holds `win`) with the success reply
`pending` instead of rejecting it as a duplicate. -/
theorem C4_counterexample : ¬ claimC4_p6 := by
  intro h
  obtain ⟨msg, heq⟩ :=
    h pow10 "t" 7 1 stWin Report.win ⟨1, 2, some Report.win, none, none⟩
      rfl (Or.inl ⟨rfl, rfl⟩)
  have h2 : (report_result_p6 pow10 "t" 7 1 stWin Report.win).2 = P6Resp.okPending := by
    norm_num [report_result_p6, stWin]
  rw [heq] at h2
  simp at h2

/-- C5 (amended): in the part_001 handler a report naming a missing
match is rejected, and a report naming a match whose two report slots
are already non-null (the state every resolution leaves behind) is
rejected whoever sends it, with the store unchanged — the protection
comes from the duplicate-slot guard, not from a `resolved_at` check.
(The v3.1 variant checks only existence and re-runs the resolution; see
its counterexample.) -/
theorem C5_resolved_is_rejected :
    ∀ (pw : ℚ → ℚ) (ts : String) (now sender : ℕ) (st : StoreState)
      (r : Report) (m : MatchRow),
      (st.matchRow = none →
        report_result_p1 pw ts now sender st r
          = (st, RResp.fail ("無効なマッチIDです。"))) ∧
      (st.matchRow = some m → m.report1.isSome → m.report2.isSome →
        ∃ msg, report_result_p1 pw ts now sender st r = (st, RResp.fail msg)) := by
  intro pw ts now sender st r m
  constructor
  · intro hnone
    simp [report_result_p1, hnone]
  · intro hm hs1 hs2
    by_cases hb1 : m.player1 = sender
    · exact ⟨"既に結果を報告済みです。", by simp [report_result_p1, hm, hb1, hs1]⟩
    · have hb1' : (m.player1 == sender) = false := beq_eq_false_iff_ne.mpr hb1
      by_cases hb2 : m.player2 = sender
      · exact ⟨"既に結果を報告済みです。", by simp [report_result_p1, hm, hb1', hb2, hs2]⟩
      · have hb2' : (m.player2 == sender) = false := beq_eq_false_iff_ne.mpr hb2
        exact ⟨"このマッチに参加していません。", by simp [report_result_p1, hm, hb1', hb2']⟩

/-- Witness for C5: a report naming a missing match, and a report by
player 2 on the already-resolved match `stResolved`. -/
theorem C5_witness :
    report_result_p1 pow10 "t" 7 3 (⟨none, usersAB⟩ : StoreState) Report.win
      = ((⟨none, usersAB⟩ : StoreState), RResp.fail ("無効なマッチIDです。"))
    ∧ ∃ msg, report_result_p1 pow10 "t" 7 2 stResolved Report.lose
        = (stResolved, RResp.fail msg) :=
  ⟨(C5_resolved_is_rejected pow10 "t" 7 3 ⟨none, usersAB⟩ Report.win
      ⟨1, 2, none, none, none⟩).1 rfl,
   (C5_resolved_is_rejected pow10 "t" 7 2 stResolved Report.lose
      ⟨1, 2, some Report.win, some Report.lose, some 5⟩).2 rfl rfl rfl⟩

/-- Counterexample for C5: the v3.1 handler accepts a retried `win`
report on the already-resolved match `stResolved` and re-runs the Elo
credit, moving the reporter's rate from 1500 to 1516 — the resolution
path is not idempotent and there is no `resolved_at` guard. -/
theorem C5_counterexample : ¬ claimC5_v31 := by
  intro h
  have h1 := (h pow10 7 1 stResolved Report.win
    ⟨1, 2, some Report.win, some Report.lose, some 5⟩ 5 rfl rfl).1
  have h2 : ((report_result_v31 pow10 7 1 stResolved Report.win).1.users 1).rate = 1516 := by
    simp +decide [report_result_v31, calculateElo_v31, stResolved, usersAB, uAlice, uBob]
    norm_num [jsRound, pow10]
  have h3 : ((stResolved.users 1)).rate = 1500 := by
    norm_num [stResolved, usersAB, uAlice]
  rw [h2, h3] at h1
  exact absurd h1 (by decide)

/-- C6: when a connection bound to user `u` closes, the `userToWsId`
entry for `u` is removed exactly when it still points to the closing
connection (a stale close leaves a newer session's mapping intact),
other users' entries are untouched, and `u` is removed from the
matchmaking queue. -/
theorem C6_close_guarded :
    ∀ (s : SessionState) (ws u : ℕ), s.wsUser ws = some u →
      ((close_v1 s ws).userToWsId u
          = if s.userToWsId u = some ws then none else s.userToWsId u)
      ∧ u ∉ (close_v1 s ws).queue
      ∧ (∀ v, v ≠ u → (close_v1 s ws).userToWsId v = s.userToWsId v) := by
  intro s ws u h
  refine ⟨?_, ?_, ?_⟩
  · by_cases hc : s.userToWsId u = some ws <;> simp [close_v1, h, hc]
  · by_cases hc : s.userToWsId u = some ws <;> simp [close_v1, h, hc, List.mem_filter]
  · intro v hv
    by_cases hc : s.userToWsId u = some ws <;> simp [close_v1, h, hc, hv]

/-- Witness for C6: a stale close (map points to connection 2, closing
connection 1) preserves the mapping; an owning close removes it; the
queued user is evicted in both. -/
theorem C6_witness :
    (((close_v1 sStale 1).userToWsId 5
        = if sStale.userToWsId 5 = some 1 then none else sStale.userToWsId 5)
      ∧ 5 ∉ (close_v1 sStale 1).queue
      ∧ (∀ v, v ≠ 5 → (close_v1 sStale 1).userToWsId v = sStale.userToWsId v))
    ∧ (((close_v1 sOwn 1).userToWsId 5
        = if sOwn.userToWsId 5 = some 1 then none else sOwn.userToWsId 5)
      ∧ 5 ∉ (close_v1 sOwn 1).queue
      ∧ (∀ v, v ≠ 5 → (close_v1 sOwn 1).userToWsId v = sOwn.userToWsId v)) :=
  ⟨C6_close_guarded sStale 1 5 rfl, C6_close_guarded sOwn 1 5 rfl⟩

/-- A single queue step of the index.js variant preserves freedom from
duplicates. -/
theorem qstep_nodup : ∀ {q q' : List ℕ}, QStep q q' → q.Nodup → q'.Nodup
| _, _, QStep.joinQ q u, hq => by
    by_cases hu : u ∈ q
    · rw [join_queue_v1, if_pos hu]
      exact hq
    · rw [join_queue_v1, if_neg hu]
      simp [List.nodup_append, hq, hu]
| _, _, QStep.leaveQ q u, hq => hq.filter _
| _, _, QStep.matched a b rest, hq => List.Nodup.of_cons (List.Nodup.of_cons hq)
| _, _, QStep.requeueBoth a b rest, hq => by
    rw [List.nodup_cons] at hq ⊢
    obtain ⟨ha, hq2⟩ := hq
    rw [List.nodup_cons] at hq2
    obtain ⟨hb, hn⟩ := hq2
    have hab : a ≠ b := fun hc => ha (hc ▸ List.mem_cons_self b rest)
    have har : a ∉ rest := fun hc => ha (List.mem_cons_of_mem b hc)
    refine ⟨?_, ?_⟩
    · intro hc
      rcases List.mem_cons.mp hc with hc | hc
      · exact hab hc.symm
      · exact hb hc
    · rw [List.nodup_cons]
      exact ⟨har, hn⟩
| _, _, QStep.requeueFst a b rest, hq => by
    rw [List.nodup_cons] at hq ⊢
    obtain ⟨ha, hq2⟩ := hq
    rw [List.nodup_cons] at hq2
    exact ⟨fun hc => ha (List.mem_cons_of_mem b hc), hq2.2⟩
| _, _, QStep.requeueSnd a b rest, hq => List.Nodup.of_cons hq

/-- C7 (amended): every queue state of the index.js variant reachable by
any sequence of join/leave/close/pairing operations has each user-id at
most once, and enqueueing a user-id already present is a no-op.  (The
part_005 variant pushes unconditionally; see its counterexample.) -/
theorem C7_queue_unique :
    ∀ q : List ℕ, ReachableQ q → q.Nodup ∧ ∀ u, u ∈ q → join_queue_v1 q u = q := by
  intro q hq
  constructor
  · induction hq with
    | nil => simp
    | step hr hs ih => exact qstep_nodup hs ih
  · intro u hu
    simp [join_queue_v1, hu]

/-- Witness for C7: the queue `[1, 2]` obtained by two enqueues is
duplicate-free and re-enqueueing either member changes nothing. -/
theorem C7_witness :
    ([1, 2] : List ℕ).Nodup ∧ ∀ u, u ∈ ([1, 2] : List ℕ) → join_queue_v1 [1, 2] u = [1, 2] := by
  refine C7_queue_unique [1, 2] ?_
  have e1 : join_queue_v1 [] 1 = [1] := by decide
  have e2 : join_queue_v1 [1] 2 = [1, 2] := by decide
  have h1 : ReachableQ [1] := ReachableQ.step ReachableQ.nil (e1 ▸ QStep.joinQ [] 1)
  exact ReachableQ.step h1 (e2 ▸ QStep.joinQ [1] 2)

/-- Counterexample for C7: the part_005 `join_queue` pushes a second
entry for a user-id that is already queued, so the enqueue is not a
no-op and the id appears twice. -/
theorem C7_counterexample : ¬ claimC7_005 := by
  intro h
  have h1 := h [⟨1, 5, 3⟩] 2 5 4 ⟨⟨1, 5, 3⟩, by simp, rfl⟩
  have h2 : join_queue_005 [⟨1, 5, 3⟩] 2 5 4 = [⟨1, 5, 3⟩, ⟨2, 5, 4⟩] := rfl
  rw [h2] at h1
  simp at h1

/-- C8 (amended): the index.js `report_battle_result` handler prepends
the new record (newest first) and caps the stored history at 10 entries,
for every prior history length; the part_001 resolution prepends but
never caps (shown here on the cancel branch), and the part_006
resolution appends at the end, uncapped. -/
theorem C8_history_cap :
    ∀ (ts : String) (p1Data p2Data : UserRow) (w : Bool),
      (∃ e1 e2,
        (report_battle_result_consistent ts p1Data p2Data w).1.history
            = (e1 :: p1Data.history).take 10 ∧
        (report_battle_result_consistent ts p1Data p2Data w).2.history
            = (e2 :: p2Data.history).take 10 ∧
        ((report_battle_result_consistent ts p1Data p2Data w).1.history).head? = some e1 ∧
        ((report_battle_result_consistent ts p1Data p2Data w).2.history).head? = some e2 ∧
        ((report_battle_result_consistent ts p1Data p2Data w).1.history).length ≤ 10 ∧
        ((report_battle_result_consistent ts p1Data p2Data w).2.history).length ≤ 10)
      ∧ ∀ (pw : ℚ → ℚ),
          ((resolveReports_p1 pw ts Report.cancel Report.cancel p1Data p2Data).2.1.history)
            = (ts ++ " - 対戦中止") :: p1Data.history := by
  intro ts p1Data p2Data w
  constructor
  · cases w <;>
      refine ⟨_, _, rfl, rfl, ?_, ?_, ?_, ?_⟩ <;>
      simp [report_battle_result_consistent, List.take_succ_cons, List.length_take]
  · intro pw
    simp [resolveReports_p1]

/-- Counterexample for C8: a part_001 cancel/cancel resolution on a user
whose history already holds 10 entries stores 11 entries — the cap is
absent. -/
theorem C8_counterexample : ¬ claimC8_cap := by
  intro h
  have h1 := h pow10 "t" Report.cancel Report.cancel uTen uTen
  simp [resolveReports_p1, uTen, hist10] at h1

/-- C9 (amended): joining a part_006 spectate room adds the joiner to
the room's spectator set and notifies the (present) broadcaster with
`new_spectator`; no message of any kind is sent to the joiner — there is
no cached offer to deliver. -/
theorem C9_join_spectate :
    ∀ (rooms : ℕ → Option Room) (present : ℕ → Bool) (rid ws : ℕ) (room : Room),
      rooms rid = some room → present room.broadcasterWsId = true →
      ws ≠ room.broadcasterWsId →
      (∃ room', (join_spectate_room_p6 rooms present rid ws).1 rid = some room'
          ∧ ws ∈ room'.spectators)
      ∧ (join_spectate_room_p6 rooms present rid ws).2
          = [SMsg.newSpectator room.broadcasterWsId ws]
      ∧ ∀ msg ∈ (join_spectate_room_p6 rooms present rid ws).2, SMsg.target msg ≠ ws := by
  intro rooms present rid ws room hr hp hw
  refine ⟨?_, ?_, ?_⟩
  · refine ⟨{ room with spectators :=
        if ws ∈ room.spectators then room.spectators else room.spectators ++ [ws] }, ?_, ?_⟩
    · simp [join_spectate_room_p6, hr]
    · by_cases hin : ws ∈ room.spectators <;> simp [hin]
  · simp [join_spectate_room_p6, hr, hp]
  · intro msg hmsg
    simp [join_spectate_room_p6, hr, hp] at hmsg
    subst hmsg
    simpa [SMsg.target] using fun hc => hw hc.symm

/-- Witness for C9: connection 3 joins room 0 (broadcaster 1, existing
spectator 2). -/
theorem C9_witness :
    (∃ room', (join_spectate_room_p6 roomsC9 (fun _ => true) 0 3).1 0 = some room'
        ∧ 3 ∈ room'.spectators)
    ∧ (join_spectate_room_p6 roomsC9 (fun _ => true) 0 3).2 = [SMsg.newSpectator 1 3]
    ∧ ∀ msg ∈ (join_spectate_room_p6 roomsC9 (fun _ => true) 0 3).2, SMsg.target msg ≠ 3 :=
  C9_join_spectate roomsC9 (fun _ => true) 0 3 ⟨1, "cara", [2]⟩ rfl rfl (by decide)

/-- Counterexample for C9: after the broadcaster of room 0 has sent an
offer signal, the joining spectator (connection 3) receives nothing at
all — in particular no `spectate_signal` carrying a cached offer. -/
theorem C9_counterexample : ¬ claimC9_p6 := by
  intro h
  obtain ⟨msg, hmem, htgt⟩ :=
    h roomsC9 (fun _ => true) 0 2 9 3 ⟨1, "cara", [2]⟩ rfl (by decide)
  have hrel : (webrtc_signal_to_spectator_p6 roomsC9 0 2 9).1 = roomsC9 := by
    simp [webrtc_signal_to_spectator_p6, roomsC9]
  rw [hrel] at hmem
  have hmsgs : (join_spectate_room_p6 roomsC9 (fun _ => true) 0 3).2
      = [SMsg.newSpectator 1 3] := by
    simp [join_spectate_room_p6, roomsC9]
  rw [hmsgs] at hmem
  simp at hmem
  subst hmem
  simp [SMsg.target] at htgt

/-- C10: `logout` deletes the user's `userToWsId` entry unconditionally:
even when the requesting connection has been superseded (the entry
points to a different connection), the newer session's mapping is
evicted — unlike the guarded removal performed on close, which leaves it
intact. -/
theorem C10_logout_unguarded :
    ∀ (s : SessionState) (ws u : ℕ), s.wsUser ws = some u →
      (logout_v1 s ws).1.userToWsId u = none
      ∧ (logout_v1 s ws).2 = [OutMsg.logoutOk ws]
      ∧ (∀ c2, c2 ≠ ws → s.userToWsId u = some c2 →
          (logout_v1 s ws).1.userToWsId u = none
          ∧ (close_v1 s ws).userToWsId u = some c2) := by
  intro s ws u h
  refine ⟨?_, ?_, ?_⟩
  · simp [logout_v1, h]
  · simp [logout_v1, h]
  · intro c2 hc2 hmap
    have hne : s.userToWsId u ≠ some ws := by
      rw [hmap]
      simp [hc2]
    refine ⟨by simp [logout_v1, h], ?_⟩
    simp [close_v1, h, hne, hmap, hc2]

/-- Witness for C10: connection 1 is (stale) bound to user 5 while the
mapping points to connection 2; its logout evicts the mapping, whereas
its close would have preserved it. -/
theorem C10_witness :
    (logout_v1 sStale 1).1.userToWsId 5 = none
    ∧ (logout_v1 sStale 1).2 = [OutMsg.logoutOk 1]
    ∧ (∀ c2, c2 ≠ 1 → sStale.userToWsId 5 = some c2 →
        (logout_v1 sStale 1).1.userToWsId 5 = none
        ∧ (close_v1 sStale 1).userToWsId 5 = some c2) :=
  C10_logout_unguarded sStale 1 5 rfl

end Anokoro
